import Mathlib

/-!
Verification of the SWL-ka9q channel resolution engine.

Shallow embedding of `radiod_client.py` and `discover_multicast.py`.
The network collaborators (the ka9q multicast discovery source, the
control-socket discovery source, and the `RadiodControl` control channel)
are external to the repository; each network interaction is modelled as an
explicit input describing its outcome (`Except` for a call that can raise),
and the commands sent over the control channel are collected in an output
list.  Python `float` frequencies are modelled as rationals, Python `dict`s
as insertion-ordered association lists with update-in-place semantics.
-/

namespace SWL

/-- Python `int()` truncation toward zero on a rational. -/
def pyInt (q : ℚ) : ℤ := if 0 ≤ q then ⌊q⌋ else ⌈q⌉

/-- Python `abs()` on a rational. -/
def pyAbs (q : ℚ) : ℚ := if q < 0 then -q else q

/-- Python `x or default` where `x` is an optional string
(`None` and the empty string are falsy). -/
def pyOrStr (v : Option String) (d : String) : String :=
  match v with
  | none => d
  | some s => if s = "" then d else s

/-- Python `x or default` where `x` is an optional integer
(`None` and `0` are falsy). -/
def pyOrNat (v : Option Nat) (d : Nat) : Nat :=
  match v with
  | none => d
  | some n => if n = 0 then d else n

/-- Python dict assignment `d[k] = v` on an insertion-ordered association
list: an existing key keeps its position and gets the new value, a new key
is appended at the end. -/
def pyDictInsert {κ α : Type} [DecidableEq κ] :
    List (κ × α) → κ → α → List (κ × α)
  | [], k, v => [(k, v)]
  | (k', v') :: rest, k, v =>
    if k' = k then (k, v) :: rest else (k', v') :: pyDictInsert rest k v

/-- Python dict lookup `d[k]` (first entry with the key; keys are unique
in lists produced by `pyDictInsert`). -/
def pyDictLookup {κ α : Type} [DecidableEq κ] :
    List (κ × α) → κ → Option α
  | [], _ => none
  | (k', v) :: rest, k => if k' = k then some v else pyDictLookup rest k

/-- Default RTP destination `DEFAULT_RTP_DESTINATION` (the documented
default; the environment override `SWL_RTP_DESTINATION` is an external
input not modelled). -/
def DEFAULT_RTP_DESTINATION : String := "239.1.2.100"

/-- Default RTP port `DEFAULT_RTP_PORT` (default of the `SWL_RTP_PORT`
environment entry). -/
def DEFAULT_RTP_PORT : Nat := 5004

/-- Default demodulation preset `DEFAULT_PRESET`. -/
def DEFAULT_PRESET : String := "am"

/-- Default sample rate `DEFAULT_SAMPLE_RATE`. -/
def DEFAULT_SAMPLE_RATE : Nat := 12000

/-- An observed channel as returned by the external ka9q discovery sources
(the values of the `ssrc → channel` mapping; the ssrc is the key). -/
structure Channel where
  preset : String
  frequency : ℚ
  sample_rate : Nat
  snr : ℚ
  multicast_address : String
  port : Nat
deriving Repr, DecidableEq

/-- The per-channel info dict built by `discover_channels`. -/
structure ChannelInfo where
  ssrc : Nat
  preset : String
  frequency_hz : ℚ
  frequency_mhz : ℚ
  sample_rate : Nat
  snr : ℚ
  multicast_address : String
  port : Nat
deriving Repr, DecidableEq

/-- The `channel_info` dict literal of `discover_channels`. -/
def mkChannelInfo (ssrc : Nat) (ch : Channel) : ChannelInfo :=
  { ssrc := ssrc
    preset := ch.preset
    frequency_hz := ch.frequency
    frequency_mhz := ch.frequency / 1000000
    sample_rate := ch.sample_rate
    snr := ch.snr
    multicast_address := ch.multicast_address
    port := ch.port }

/-- The `continue` guard of the loop in `discover_channels`:
`if rtp_destination and ch.multicast_address != rtp_destination`. -/
def destFilterSkip (rtp_destination : Option String) (ch : Channel) : Bool :=
  match rtp_destination with
  | none => false
  | some s => if s = "" then false else ch.multicast_address != s

/-- The result dict of `discover_channels`. -/
structure DiscoverResult where
  multicast_address : String
  channel_count : Nat
  channels : List (Nat × ChannelInfo)
  channels_by_freq : List (ℤ × ChannelInfo)
  note : Option String
deriving Repr, DecidableEq

/-- The `for ssrc, ch in channels.items()` loop of `discover_channels`,
building `result.channels` and `result.channels_by_freq`. -/
def buildChannels (rtp_destination : Option String) :
    List (Nat × Channel) →
    List (Nat × ChannelInfo) × List (ℤ × ChannelInfo) →
    List (Nat × ChannelInfo) × List (ℤ × ChannelInfo)
  | [], acc => acc
  | (ssrc, ch) :: rest, acc =>
    if destFilterSkip rtp_destination ch then
      buildChannels rtp_destination rest acc
    else
      let info := mkChannelInfo ssrc ch
      buildChannels rtp_destination rest
        (pyDictInsert acc.1 ssrc info, pyDictInsert acc.2 (pyInt ch.frequency) info)

/-- Embedding of `discover_channels`.  The `try` block (hostname resolution plus the
native multicast listen) is modelled by `source`: `.error e` when either
step raised, `.ok (mcast_addr, channels)` on success. -/
def discover_channels
    (source : Except String (String × List (Nat × Channel)))
    (rtp_destination : Option String) : DiscoverResult :=
  match source with
  | .error _ =>
    { multicast_address := "unknown"
      channel_count := 0
      channels := []
      channels_by_freq := []
      note := some "Multicast discovery not available (remote client or network issue)" }
  | .ok (mcast_addr, channels) =>
    let built := buildChannels rtp_destination channels ([], [])
    { multicast_address := mcast_addr
      channel_count := built.1.length
      channels := built.1
      channels_by_freq := built.2
      note :=
        if built.1.length = 0 then
          some "No channels discovered via multicast (may be remote client)"
        else none }

/-- Embedding of `find_channel_by_frequency`: exact match on the truncated-integer
frequency index first, then the first fuzzy match within `tolerance_hz`
in snapshot iteration order.  The internal `discover_channels` network
call is modelled by the `source` argument. -/
def find_channel_by_frequency
    (source : Except String (String × List (Nat × Channel)))
    (frequency_hz : ℚ)
    (rtp_destination : Option String := none)
    (tolerance_hz : ℚ := 1) : Option ChannelInfo :=
  let discovered := discover_channels source rtp_destination
  let freq_int := pyInt frequency_hz
  match pyDictLookup discovered.channels_by_freq freq_int with
  | some info => some info
  | none =>
    (discovered.channels.map Prod.snd).find?
      (fun ch_info => decide (pyAbs (ch_info.frequency_hz - frequency_hz) ≤ tolerance_hz))

/-- Outcome of `control.request_channel(...)` (the new, no-ssrc API):
it succeeds, raises `AttributeError` (older ka9q-python without
`request_channel`), or raises some other exception. -/
inductive RequestOutcome where
  | ok : RequestOutcome
  | attrError : RequestOutcome
  | raised : String → RequestOutcome
deriving Repr, DecidableEq

/-- Behaviour of the external `RadiodControl` adapter during one call:
the outcome of each command it may be asked to run, and of
`get_metrics()`. -/
structure ControlBehavior where
  request_outcome : RequestOutcome
  create_outcome : Except String Unit
  remove_outcome : Except String Unit
  metrics : Except String String
deriving Repr

/-- A command sent over the control channel. -/
inductive Command where
  | request (frequency_hz : ℚ) (destination : String) (preset : String)
      (sample_rate : Nat) (agc_enable : Nat) (gain : ℚ)
  | create (ssrc : ℤ) (frequency_hz : ℚ) (preset : String)
      (sample_rate : Nat) (agc_enable : Nat) (gain : ℚ)
  | remove (ssrc : ℤ)
deriving Repr, DecidableEq

/-- The frequency a control command tunes, when it has one. -/
def Command.freqOf : Command → Option ℚ
  | .request f _ _ _ _ _ => some f
  | .create _ f _ _ _ _ => some f
  | .remove _ => none

/-- The result dict of `get_or_create_channel` (and of
`request_channel`/`create_channel`); dict keys absent in a given branch
are `none`. -/
structure GocResult where
  success : Bool
  ssrc : Option ℤ
  frequency_hz : ℚ
  multicast_address : String
  port : Nat
  sample_rate : Nat
  preset : String
  mode : String
  existed : Bool
  note : Option String := none
  metrics : Option String := none
deriving Repr, DecidableEq

/-- Embedding of `_add_metrics` as `add_metrics`: attach `control.get_metrics()` to the result when
requested; a metrics failure never breaks the primary result. -/
def add_metrics (result : GocResult) (control : ControlBehavior)
    (include_metrics : Bool) : GocResult :=
  if include_metrics then
    match control.metrics with
    | .ok m => { result with metrics := some m }
    | .error _ => result
  else result

/-- The tail of `get_or_create_channel` after the create/request command:
re-discover to learn the assigned ssrc, else fall back on the
pre-assigned ssrc, else report the request as pending. -/
def gocAfterCreate
    (snap2 : Except String (String × List (Nat × Channel)))
    (control : ControlBehavior)
    (frequency_hz : ℚ) (rtp_destination : String) (rtp_port : Nat)
    (preset : String) (sample_rate : Nat)
    (fallback_ssrc : Option ℤ) (cmds : List Command)
    (include_metrics : Bool) : GocResult × List Command :=
  match find_channel_by_frequency snap2 frequency_hz (some rtp_destination) with
  | some created =>
    (add_metrics
      { success := true
        ssrc := some (created.ssrc : ℤ)
        frequency_hz := created.frequency_hz
        multicast_address := created.multicast_address
        port := created.port
        sample_rate := created.sample_rate
        preset := created.preset
        mode := "created"
        existed := false } control include_metrics, cmds)
  | none =>
    match fallback_ssrc with
    | some fs =>
      (add_metrics
        { success := true
          ssrc := some fs
          frequency_hz := frequency_hz
          multicast_address := rtp_destination
          port := rtp_port
          sample_rate := sample_rate
          preset := preset
          mode := "created_fallback"
          existed := false } control include_metrics, cmds)
    | none =>
      (add_metrics
        { success := true
          ssrc := none
          frequency_hz := frequency_hz
          multicast_address := rtp_destination
          port := rtp_port
          sample_rate := sample_rate
          preset := preset
          mode := "requested"
          existed := false
          note := some "Channel requested; SSRC pending discovery" } control include_metrics, cmds)

/-- Embedding of `get_or_create_channel`.  The two discovery passes it performs (the
pre-check and the post-create confirmation) are modelled by `snap1` and
`snap2`; the control adapter by `control`.  `.error` models an exception
propagating out of the function; on `.ok` the second component lists the
control commands issued.  The trailing `ssrc` argument is the deprecated
parameter the source ignores. -/
def get_or_create_channel
    (snap1 snap2 : Except String (String × List (Nat × Channel)))
    (control : ControlBehavior)
    (frequency_hz : ℚ)
    (rtp_destination : Option String := none)
    (rtp_port : Option Nat := none)
    (preset : Option String := none)
    (sample_rate : Option Nat := none)
    (agc_enable : Bool := false)
    (gain : ℚ := 30)
    (include_metrics : Bool := false)
    (ssrc : Option ℤ := none) : Except String (GocResult × List Command) :=
  let rtp_destination := pyOrStr rtp_destination DEFAULT_RTP_DESTINATION
  let rtp_port := pyOrNat rtp_port DEFAULT_RTP_PORT
  let preset := pyOrStr preset DEFAULT_PRESET
  let sample_rate := pyOrNat sample_rate DEFAULT_SAMPLE_RATE
  match find_channel_by_frequency snap1 frequency_hz (some rtp_destination) with
  | some existing =>
    .ok
      ({ success := true
         ssrc := some (existing.ssrc : ℤ)
         frequency_hz := existing.frequency_hz
         multicast_address := existing.multicast_address
         port := existing.port
         sample_rate := existing.sample_rate
         preset := existing.preset
         mode := "existing"
         existed := true }, [])
  | none =>
    match control.request_outcome with
    | .raised msg => .error msg
    | .ok =>
      let cmds := [Command.request frequency_hz
        (rtp_destination ++ ":" ++ toString rtp_port) preset sample_rate
        (if agc_enable then 1 else 0) gain]
      .ok (gocAfterCreate snap2 control frequency_hz rtp_destination rtp_port
        preset sample_rate none cmds include_metrics)
    | .attrError =>
      match control.create_outcome with
      | .error msg => .error msg
      | .ok _ =>
        let fallback_ssrc := pyInt frequency_hz
        let cmds := [Command.create fallback_ssrc frequency_hz preset sample_rate
          (if agc_enable then 1 else 0) gain]
        .ok (gocAfterCreate snap2 control frequency_hz rtp_destination rtp_port
          preset sample_rate (some fallback_ssrc) cmds include_metrics)

/-- The result dict of `remove_channel`. -/
structure RemoveResult where
  success : Bool
  ssrc : Option ℤ := none
  error : Option String := none
  metrics : Option String := none
deriving Repr, DecidableEq

/-- The `with RadiodControl` block of `remove_channel`: issue the remove
command; attach metrics on success. -/
def removeIssue (control : ControlBehavior) (ssrc : ℤ)
    (include_metrics : Bool) : Except String (RemoveResult × List Command) :=
  match control.remove_outcome with
  | .error msg => .error msg
  | .ok _ =>
    let base : RemoveResult := { success := true, ssrc := some ssrc }
    let result :=
      if include_metrics then
        match control.metrics with
        | .ok m => { base with metrics := some m }
        | .error _ => base
      else base
    .ok (result, [Command.remove ssrc])

/-- Embedding of `remove_channel`.  The fresh discovery pass used to resolve a
frequency to an ssrc is modelled by `snap`. -/
def remove_channel
    (snap : Except String (String × List (Nat × Channel)))
    (control : ControlBehavior)
    (ssrc : Option ℤ := none)
    (frequency_hz : Option ℚ := none)
    (rtp_destination : Option String := none)
    (include_metrics : Bool := false) :
    Except String (RemoveResult × List Command) :=
  let rtp_destination := pyOrStr rtp_destination DEFAULT_RTP_DESTINATION
  match ssrc, frequency_hz with
  | none, some f =>
    match find_channel_by_frequency snap f (some rtp_destination) with
    | some existing => removeIssue control (existing.ssrc : ℤ) include_metrics
    | none =>
      .ok ({ success := false
             error := some ("No channel found at frequency " ++ toString f ++ " Hz") }, [])
  | none, none =>
    .ok ({ success := false
           error := some "Must provide either ssrc or frequency_hz" }, [])
  | some s, _ => removeIssue control s include_metrics

/-- The result dict printed by `discover_multicast_addresses`
(`discover_multicast.py`); dict keys absent in a branch are `none`. -/
structure DMResult where
  success : Bool
  count : Option Nat := none
  addresses : List String := []
  channel_count : Option Nat := none
  method : Option String := none
  error : Option String := none
deriving Repr, DecidableEq

/-- Embedding of `discover_multicast_addresses` (`discover_multicast.py`).  The
multicast listen is modelled by `multicast_source`; the control-socket
query (import plus call, whose failure is swallowed by the inner
`except`) by `control_source`. -/
def discover_multicast_addresses
    (multicast_source : Except String (List (Nat × Channel)))
    (control_source : Except String (List (Nat × Channel))) : DMResult :=
  match multicast_source with
  | .error e => { success := false, error := some e, addresses := [] }
  | .ok channels0 =>
    let channels :=
      if channels0.isEmpty then
        match control_source with
        | .ok c2 => c2
        | .error _ => channels0
      else channels0
    let raw := (channels.map (fun p => p.2.multicast_address)).filter (fun a => a ≠ "")
    let addrs := List.insertionSort (fun a b => a ≤ b) raw.dedup
    { success := true
      count := some addrs.length
      addresses := addrs
      channel_count := some channels.length
      method := some (if channels.isEmpty then "none" else "multicast") }

/-! Concrete fixtures used by witnesses and counterexamples. -/

/-- A channel at 100.1 Hz (fractional frequency). -/
def chTolA : Channel :=
  { preset := "am", frequency := 1001/10, sample_rate := 12000, snr := 0,
    multicast_address := "239.1.2.100", port := 5004 }

/-- Discovery outcome holding only `chTolA`. -/
def srcTolA : Except String (String × List (Nat × Channel)) :=
  .ok ("239.255.0.1", [(1, chTolA)])

/-- A closing/closed channel (frequency 0). -/
def chClosed : Channel :=
  { preset := "am", frequency := 0, sample_rate := 12000, snr := 0,
    multicast_address := "239.1.2.100", port := 5004 }

/-- Discovery outcome holding only the closed channel. -/
def srcClosed : Except String (String × List (Nat × Channel)) :=
  .ok ("239.255.0.1", [(2, chClosed)])

/-- A channel at 104 Hz. -/
def ch104 : Channel :=
  { preset := "am", frequency := 104, sample_rate := 12000, snr := 0,
    multicast_address := "239.1.2.100", port := 5004 }

/-- A channel at 101 Hz. -/
def ch101 : Channel :=
  { preset := "am", frequency := 101, sample_rate := 12000, snr := 0,
    multicast_address := "239.1.2.100", port := 5004 }

/-- Discovery outcome listing `ch104` before `ch101`. -/
def srcNear : Except String (String × List (Nat × Channel)) :=
  .ok ("239.255.0.1", [(1, ch104), (2, ch101)])

/-- Test-suite channel 1001: 10 MHz, preset iq, rate 24000. -/
def chIQ : Channel :=
  { preset := "iq", frequency := 10000000, sample_rate := 24000, snr := 0,
    multicast_address := "239.1.2.3", port := 5004 }

/-- Test-suite channel 1002: 10 MHz, preset am, rate 48000. -/
def chAM48 : Channel :=
  { preset := "am", frequency := 10000000, sample_rate := 48000, snr := 0,
    multicast_address := "239.1.2.3", port := 5004 }

/-- Test-suite channel 1003: 10 MHz, preset am, rate 12000. -/
def chAM12 : Channel :=
  { preset := "am", frequency := 10000000, sample_rate := 12000, snr := 0,
    multicast_address := "239.1.2.3", port := 5004 }

/-- Test-suite channel 1004: duplicate of 1003. -/
def chAM12b : Channel :=
  { preset := "am", frequency := 10000000, sample_rate := 12000, snr := 0,
    multicast_address := "239.1.2.3", port := 5004 }

/-- The snapshot of `test_find_channel_strict_filtering`. -/
def testSource : Except String (String × List (Nat × Channel)) :=
  .ok ("239.1.2.3", [(1001, chIQ), (1002, chAM48), (1003, chAM12), (1004, chAM12b)])

/-- A channel at 14.23 MHz on the default RTP destination. -/
def chW : Channel :=
  { preset := "am", frequency := 14230000, sample_rate := 12000, snr := 0,
    multicast_address := "239.1.2.100", port := 5004 }

/-- Discovery outcome holding only `chW`. -/
def srcW : Except String (String × List (Nat × Channel)) :=
  .ok ("239.255.0.1", [(50, chW)])

/-- A discovery pass that succeeded but saw no channels. -/
def emptySnap : Except String (String × List (Nat × Channel)) :=
  .ok ("239.255.0.1", [])

/-- A control adapter supporting the new request API, every command
accepted, metrics unavailable. -/
def ctrlOk : ControlBehavior :=
  { request_outcome := .ok, create_outcome := .ok (),
    remove_outcome := .ok (), metrics := .error "na" }

/-- An old control adapter: `request_channel` raises `AttributeError`,
the legacy `create_channel` succeeds. -/
def ctrlLegacy : ControlBehavior :=
  { request_outcome := .attrError, create_outcome := .ok (),
    remove_outcome := .ok (), metrics := .error "na" }

/-- A channel on multicast address 239.1.2.3, for the address-discovery
fixtures. -/
def chDM : Channel :=
  { preset := "am", frequency := 10000000, sample_rate := 12000, snr := 0,
    multicast_address := "239.1.2.3", port := 5004 }

/-- The `mode := "requested"` result of a get-or-create at 1 MHz with
every optional argument left at its default. -/
def requested1M : GocResult :=
  { success := true
    ssrc := none
    frequency_hz := 1000000
    multicast_address := DEFAULT_RTP_DESTINATION
    port := DEFAULT_RTP_PORT
    sample_rate := DEFAULT_SAMPLE_RATE
    preset := DEFAULT_PRESET
    mode := "requested"
    existed := false
    note := some "Channel requested; SSRC pending discovery" }

/-- The single request command issued by a get-or-create at 1 MHz with
every optional argument left at its default. -/
def requestCmd1M : Command :=
  .request 1000000 (DEFAULT_RTP_DESTINATION ++ ":" ++ toString DEFAULT_RTP_PORT)
    DEFAULT_PRESET DEFAULT_SAMPLE_RATE 0 30

/-! Helper lemmas. -/

/-- The embedded Python `abs` agrees with the mathematical absolute
value. -/
theorem pyAbs_eq_abs (q : ℚ) : pyAbs q = |q| := by
  unfold pyAbs
  split
  · exact (abs_of_neg (by assumption)).symm
  · exact (abs_of_nonneg (not_lt.mp (by assumption))).symm

/-- A successful `pyDictLookup` hit is an entry of the list. -/
theorem pyDictLookup_mem {κ α : Type} [DecidableEq κ] :
    ∀ (l : List (κ × α)) (k : κ) (v : α),
      pyDictLookup l k = some v → (k, v) ∈ l := by
  intro l
  induction l with
  | nil => intro k v h; simp [pyDictLookup] at h
  | cons hd rest ih =>
    intro k v h
    obtain ⟨k', v'⟩ := hd
    simp only [pyDictLookup] at h
    split at h
    · rename_i hk
      injection h with hv
      subst hv
      subst hk
      exact List.mem_cons_self _ _
    · exact List.mem_cons_of_mem _ (ih k v h)

/-- Every entry after a `pyDictInsert` is an old entry or the new pair. -/
theorem pyDictInsert_mem {κ α : Type} [DecidableEq κ] :
    ∀ (l : List (κ × α)) (k : κ) (v : α) (p : κ × α),
      p ∈ pyDictInsert l k v → p ∈ l ∨ p = (k, v) := by
  intro l k v
  induction l with
  | nil =>
    intro p hp
    simp only [pyDictInsert, List.mem_singleton] at hp
    right; exact hp
  | cons hd rest ih =>
    intro p hp
    obtain ⟨k', v'⟩ := hd
    simp only [pyDictInsert] at hp
    split at hp
    · rcases List.mem_cons.mp hp with h | h
      · right; exact h
      · left; exact List.mem_cons_of_mem _ h
    · rcases List.mem_cons.mp hp with h | h
      · left; rw [h]; exact List.mem_cons_self _ _
      · rcases ih p h with h1 | h1
        · left; exact List.mem_cons_of_mem _ h1
        · right; exact h1

/-- Invariant of the channel-building loop: every key of the
`channels_by_freq` index is the truncated integer frequency of its
record. -/
theorem buildChannels_freq_key (rtp_destination : Option String) :
    ∀ (l : List (Nat × Channel))
      (acc : List (Nat × ChannelInfo) × List (ℤ × ChannelInfo)),
      (∀ p ∈ acc.2, p.1 = pyInt p.2.frequency_hz) →
      ∀ p ∈ (buildChannels rtp_destination l acc).2, p.1 = pyInt p.2.frequency_hz := by
  intro l
  induction l with
  | nil => intro acc hacc p hp; exact hacc p hp
  | cons hd rest ih =>
    intro acc hacc p hp
    obtain ⟨ssrc, ch⟩ := hd
    simp only [buildChannels] at hp
    split at hp
    · exact ih acc hacc p hp
    · refine ih _ ?_ p hp
      intro q hq
      rcases pyDictInsert_mem _ _ _ _ hq with hmem | heq
      · exact hacc q hmem
      · rw [heq]; rfl

/-- Every key of the frequency index of a discovery result is the
truncated integer frequency of its record. -/
theorem discover_channels_freq_key
    (source : Except String (String × List (Nat × Channel)))
    (rtp_destination : Option String) :
    ∀ p ∈ (discover_channels source rtp_destination).channels_by_freq,
      p.1 = pyInt p.2.frequency_hz := by
  intro p hp
  cases source with
  | error e => simp [discover_channels] at hp
  | ok v =>
    obtain ⟨addr, chs⟩ := v
    simp only [discover_channels] at hp
    exact buildChannels_freq_key rtp_destination chs ([], []) (by simp) p hp

/-- Lemma: `List.find?` returns a hit that satisfies the test, with every
element before it failing it. -/
theorem find_first_split {α : Type} (p : α → Bool) :
    ∀ (l : List α) (a : α), l.find? p = some a →
      p a = true ∧ ∃ l1 l2, l = l1 ++ a :: l2 ∧ ∀ x ∈ l1, p x = false := by
  intro l
  induction l with
  | nil => intro a h; simp [List.find?] at h
  | cons hd rest ih =>
    intro a h
    cases hpa : p hd with
    | true =>
      rw [List.find?_cons_of_pos _ hpa, Option.some.injEq] at h
      subst h
      exact ⟨hpa, [], rest, rfl, by intro x hx; simp at hx⟩
    | false =>
      rw [List.find?_cons_of_neg _ (by simp [hpa])] at h
      obtain ⟨ha, l1, l2, heq, hfail⟩ := ih a h
      refine ⟨ha, hd :: l1, l2, by rw [heq]; rfl, ?_⟩
      intro x hx
      rcases List.mem_cons.mp hx with h1 | h1
      · rw [h1]; exact hpa
      · exact hfail x h1

/-- Lemma: `add_metrics` leaves the `mode` field unchanged. -/
theorem add_metrics_mode (result : GocResult) (control : ControlBehavior)
    (include_metrics : Bool) :
    (add_metrics result control include_metrics).mode = result.mode := by
  unfold add_metrics
  split
  · split <;> rfl
  · rfl

/-- Lemma: `add_metrics` leaves the `ssrc` field unchanged. -/
theorem add_metrics_ssrc (result : GocResult) (control : ControlBehavior)
    (include_metrics : Bool) :
    (add_metrics result control include_metrics).ssrc = result.ssrc := by
  unfold add_metrics
  split
  · split <;> rfl
  · rfl

/-- Lemma: `add_metrics` leaves the `success` field unchanged. -/
theorem add_metrics_success (result : GocResult) (control : ControlBehavior)
    (include_metrics : Bool) :
    (add_metrics result control include_metrics).success = result.success := by
  unfold add_metrics
  split
  · split <;> rfl
  · rfl

/-- The post-create tail returns exactly the command list it was
handed. -/
theorem gocAfterCreate_snd
    (snap2 : Except String (String × List (Nat × Channel)))
    (control : ControlBehavior)
    (frequency_hz : ℚ) (rtp_destination : String) (rtp_port : Nat)
    (preset : String) (sample_rate : Nat)
    (fallback_ssrc : Option ℤ) (cmds : List Command)
    (include_metrics : Bool) :
    (gocAfterCreate snap2 control frequency_hz rtp_destination rtp_port
      preset sample_rate fallback_ssrc cmds include_metrics).2 = cmds := by
  unfold gocAfterCreate
  split
  · rfl
  · split <;> rfl

/-- When the post-create discovery pass sees nothing and no fallback
identifier was pre-assigned, the tail of the create path reports
`mode = "requested"` with unknown ssrc and `success = true`. -/
theorem gocAfterCreate_requested
    (snap2 : Except String (String × List (Nat × Channel)))
    (control : ControlBehavior)
    (frequency_hz : ℚ) (rtp_destination : String) (rtp_port : Nat)
    (preset : String) (sample_rate : Nat) (cmds : List Command)
    (include_metrics : Bool)
    (h : find_channel_by_frequency snap2 frequency_hz (some rtp_destination)
        = none) :
    (gocAfterCreate snap2 control frequency_hz rtp_destination rtp_port preset
        sample_rate none cmds include_metrics).1.mode = "requested" ∧
    (gocAfterCreate snap2 control frequency_hz rtp_destination rtp_port preset
        sample_rate none cmds include_metrics).1.ssrc = none ∧
    (gocAfterCreate snap2 control frequency_hz rtp_destination rtp_port preset
        sample_rate none cmds include_metrics).1.success = true := by
  simp [gocAfterCreate, h, add_metrics_mode, add_metrics_ssrc,
    add_metrics_success]

/-- When the post-create discovery pass sees nothing but the legacy
fallback pre-assigned an identifier, the tail of the create path reports
`mode = "created_fallback"` with that identifier and `success = true`. -/
theorem gocAfterCreate_fallback
    (snap2 : Except String (String × List (Nat × Channel)))
    (control : ControlBehavior)
    (frequency_hz : ℚ) (rtp_destination : String) (rtp_port : Nat)
    (preset : String) (sample_rate : Nat) (fs : ℤ) (cmds : List Command)
    (include_metrics : Bool)
    (h : find_channel_by_frequency snap2 frequency_hz (some rtp_destination)
        = none) :
    (gocAfterCreate snap2 control frequency_hz rtp_destination rtp_port preset
        sample_rate (some fs) cmds include_metrics).1.mode = "created_fallback" ∧
    (gocAfterCreate snap2 control frequency_hz rtp_destination rtp_port preset
        sample_rate (some fs) cmds include_metrics).1.ssrc = some fs ∧
    (gocAfterCreate snap2 control frequency_hz rtp_destination rtp_port preset
        sample_rate (some fs) cmds include_metrics).1.success = true := by
  simp [gocAfterCreate, h, add_metrics_mode, add_metrics_ssrc,
    add_metrics_success]

/-! Claim theorems. -/

/-- C1 (amended): `find_channel_by_frequency` returns a record only if
the Python-int truncated frequency of the record equals the truncated desired
frequency (the exact-match path, which ignores the tolerance) or its
frequency lies within `[f - t, f + t]`; records with frequency ≤ 0 are
not excluded and may be returned. -/
theorem find_channel_match_exact_or_within_tolerance
    (source : Except String (String × List (Nat × Channel)))
    (frequency_hz tolerance_hz : ℚ) (rtp_destination : Option String)
    (r : ChannelInfo)
    (h : find_channel_by_frequency source frequency_hz rtp_destination tolerance_hz
          = some r) :
    pyInt r.frequency_hz = pyInt frequency_hz ∨
      |r.frequency_hz - frequency_hz| ≤ tolerance_hz := by
  simp only [find_channel_by_frequency] at h
  cases hlk : pyDictLookup (discover_channels source rtp_destination).channels_by_freq
      (pyInt frequency_hz) with
  | some info =>
    simp only [hlk, Option.some.injEq] at h
    subst h
    left
    exact (discover_channels_freq_key source rtp_destination _
      (pyDictLookup_mem _ _ _ hlk)).symm
  | none =>
    simp only [hlk] at h
    right
    rw [← pyAbs_eq_abs]
    exact of_decide_eq_true (find_first_split _ _ _ h).1

/-- C1 counterexample: the exact-match path returns a record 0.8 Hz away
from the desired frequency although the tolerance is 0.1 Hz, and a
closed channel (frequency 0) is returned as a match. -/
theorem find_channel_c1_counterexample :
    find_channel_by_frequency srcTolA (1009/10) none (1/10)
        = some (mkChannelInfo 1 chTolA) ∧
    (mkChannelInfo 1 chTolA).frequency_hz < 1009/10 - 1/10 ∧
    find_channel_by_frequency srcClosed (1/2) none 1
        = some (mkChannelInfo 2 chClosed) ∧
    (mkChannelInfo 2 chClosed).frequency_hz ≤ 0 := by
  refine ⟨?_, ?_, ?_, ?_⟩ <;>
    norm_num [find_channel_by_frequency, discover_channels, srcTolA, srcClosed,
      buildChannels, destFilterSkip, chTolA, chClosed, mkChannelInfo,
      pyDictInsert, pyDictLookup, pyInt, pyAbs]

/-- C1 witness: the amended theorem applied to the 100.1 Hz channel. -/
theorem find_channel_c1_witness :
    pyInt (mkChannelInfo 1 chTolA).frequency_hz = pyInt (1009/10) ∨
      |(mkChannelInfo 1 chTolA).frequency_hz - 1009/10| ≤ 1/10 :=
  find_channel_match_exact_or_within_tolerance srcTolA (1009/10) (1/10) none
    (mkChannelInfo 1 chTolA)
    (by norm_num [find_channel_by_frequency, discover_channels, srcTolA,
      buildChannels, destFilterSkip, chTolA, mkChannelInfo,
      pyDictInsert, pyDictLookup, pyInt, pyAbs])

/-- C2 (amended): when the truncated-integer exact lookup misses,
`find_channel_by_frequency` returns the first record in snapshot
iteration order whose frequency is within tolerance — not the record
with minimal `|frequency − f|`. -/
theorem find_channel_first_match_semantics
    (source : Except String (String × List (Nat × Channel)))
    (frequency_hz tolerance_hz : ℚ) (rtp_destination : Option String)
    (r : ChannelInfo)
    (hexact : pyDictLookup (discover_channels source rtp_destination).channels_by_freq
        (pyInt frequency_hz) = none)
    (h : find_channel_by_frequency source frequency_hz rtp_destination tolerance_hz
        = some r) :
    |r.frequency_hz - frequency_hz| ≤ tolerance_hz ∧
    ∃ l1 l2,
      ((discover_channels source rtp_destination).channels.map Prod.snd)
          = l1 ++ r :: l2 ∧
      ∀ e ∈ l1, ¬(|e.frequency_hz - frequency_hz| ≤ tolerance_hz) := by
  simp only [find_channel_by_frequency, hexact] at h
  obtain ⟨hp, l1, l2, heq, hfail⟩ := find_first_split _ _ _ h
  refine ⟨?_, l1, l2, heq, ?_⟩
  · rw [← pyAbs_eq_abs]
    exact of_decide_eq_true hp
  · intro e he
    rw [← pyAbs_eq_abs]
    exact of_decide_eq_false (hfail e he)

/-- C2 counterexample: with candidates at 104 Hz and 101 Hz and desired
frequency 100 within tolerance 5, the function returns the 104 Hz record
(first in snapshot order) although the 101 Hz record is strictly
closer. -/
theorem find_channel_c2_counterexample :
    find_channel_by_frequency srcNear 100 none 5 = some (mkChannelInfo 1 ch104) ∧
    (2, mkChannelInfo 2 ch101) ∈ (discover_channels srcNear none).channels ∧
    pyAbs ((mkChannelInfo 2 ch101).frequency_hz - 100)
        < pyAbs ((mkChannelInfo 1 ch104).frequency_hz - 100) ∧
    pyAbs ((mkChannelInfo 2 ch101).frequency_hz - 100) ≤ 5 := by
  refine ⟨?_, ?_, ?_, ?_⟩ <;>
    norm_num [find_channel_by_frequency, discover_channels, srcNear,
      buildChannels, destFilterSkip, ch104, ch101, mkChannelInfo,
      pyDictInsert, pyDictLookup, pyInt, pyAbs, List.find?]

/-- C2 witness: the amended theorem applied to the 104/101 Hz
snapshot. -/
theorem find_channel_c2_witness :
    |(mkChannelInfo 1 ch104).frequency_hz - 100| ≤ 5 ∧
    ∃ l1 l2,
      ((discover_channels srcNear none).channels.map Prod.snd)
          = l1 ++ (mkChannelInfo 1 ch104) :: l2 ∧
      ∀ e ∈ l1, ¬(|e.frequency_hz - 100| ≤ 5) :=
  find_channel_first_match_semantics srcNear 100 5 none (mkChannelInfo 1 ch104)
    (by norm_num [discover_channels, srcNear, buildChannels, destFilterSkip,
      ch104, ch101, mkChannelInfo, pyDictInsert, pyDictLookup, pyInt])
    (by norm_num [find_channel_by_frequency, discover_channels, srcNear,
      buildChannels, destFilterSkip, ch104, ch101, mkChannelInfo,
      pyDictInsert, pyDictLookup, pyInt, pyAbs, List.find?])

/-- C3 (code-bug evidence): the source `find_channel_by_frequency` takes
no preset or sample-rate filter arguments (the test suite of the repository
calls it with `preset=`/`sample_rate=` keywords, which raises
`TypeError`), so on the test snapshot every 10 MHz query returns the
same record — the last-inserted entry of the frequency index, ssrc 1004
— and can never return 1003, 1001 or none according to the intended
filters. -/
theorem find_channel_has_no_preset_or_rate_filter :
    find_channel_by_frequency testSource 10000000 none 1
        = some (mkChannelInfo 1004 chAM12b) ∧
    (mkChannelInfo 1004 chAM12b).ssrc = 1004 := by
  refine ⟨?_, rfl⟩
  norm_num [find_channel_by_frequency, discover_channels, testSource,
    buildChannels, destFilterSkip, chIQ, chAM48, chAM12, chAM12b, mkChannelInfo,
    pyDictInsert, pyDictLookup, pyInt]

/-- C4: when the pre-check discovery pass finds a channel at the desired
frequency, `get_or_create_channel` returns exactly that record tagged
`mode = "existing"` and issues no control-channel command (empty command
list); since the call is a pure function of the snapshots and sends
nothing, an identical second call against the unchanged daemon returns
the same `mode = "existing"` result. -/
theorem get_or_create_existing_path
    (snap1 snap2 : Except String (String × List (Nat × Channel)))
    (control : ControlBehavior) (frequency_hz : ℚ)
    (rtp_destination : Option String) (rtp_port : Option Nat)
    (preset : Option String) (sample_rate : Option Nat)
    (agc_enable : Bool) (gain : ℚ) (include_metrics : Bool) (ssrc : Option ℤ)
    (r : ChannelInfo)
    (h : find_channel_by_frequency snap1 frequency_hz
          (some (pyOrStr rtp_destination DEFAULT_RTP_DESTINATION)) = some r) :
    get_or_create_channel snap1 snap2 control frequency_hz rtp_destination
        rtp_port preset sample_rate agc_enable gain include_metrics ssrc =
      .ok ({ success := true
             ssrc := some (r.ssrc : ℤ)
             frequency_hz := r.frequency_hz
             multicast_address := r.multicast_address
             port := r.port
             sample_rate := r.sample_rate
             preset := r.preset
             mode := "existing"
             existed := true }, []) := by
  simp only [get_or_create_channel, h]

/-- C4 witness: a snapshot holding a 14.23 MHz channel on the default
RTP destination takes the existing path. -/
theorem get_or_create_c4_witness :
    get_or_create_channel srcW srcW ctrlOk 14230000 none none none none
        false 30 false none =
      .ok ({ success := true
             ssrc := some ((mkChannelInfo 50 chW).ssrc : ℤ)
             frequency_hz := (mkChannelInfo 50 chW).frequency_hz
             multicast_address := (mkChannelInfo 50 chW).multicast_address
             port := (mkChannelInfo 50 chW).port
             sample_rate := (mkChannelInfo 50 chW).sample_rate
             preset := (mkChannelInfo 50 chW).preset
             mode := "existing"
             existed := true }, []) :=
  get_or_create_existing_path srcW srcW ctrlOk 14230000 none none none none
    false 30 false none (mkChannelInfo 50 chW)
    (by norm_num [find_channel_by_frequency, discover_channels, srcW,
      buildChannels, destFilterSkip, chW, mkChannelInfo, pyOrStr,
      DEFAULT_RTP_DESTINATION, pyDictInsert, pyDictLookup, pyInt])

/-- C5 counterexample: with no existing channel, the new-API request
accepted, and the post-create discovery pass still empty, a get-or-create
at 1 MHz (an exact multiple of 100) issues exactly one command — at the
original frequency, with no +100 Hz offset — and returns
`mode = "requested"` at the original frequency: no collision retry of
any kind happens and no `maxCollisionRetries` parameter exists. -/
theorem get_or_create_c5_counterexample :
    get_or_create_channel emptySnap emptySnap ctrlOk 1000000 none none none
        none false 30 false none = .ok (requested1M, [requestCmd1M]) := by
  norm_num [get_or_create_channel, find_channel_by_frequency,
    discover_channels, emptySnap, buildChannels, pyDictLookup, pyInt, ctrlOk,
    gocAfterCreate, add_metrics, pyOrStr, pyOrNat, requested1M, requestCmd1M]

/-- C5 (amended): `get_or_create_channel` performs no collision retry:
whenever it returns normally it has issued at most one control-channel
command, and every command it issued tunes the original desired
frequency (no +100 Hz adjustment is ever applied, and no retry cap
exists because no retry exists). -/
theorem get_or_create_at_most_one_command
    (snap1 snap2 : Except String (String × List (Nat × Channel)))
    (control : ControlBehavior) (frequency_hz : ℚ)
    (rtp_destination : Option String) (rtp_port : Option Nat)
    (preset : Option String) (sample_rate : Option Nat)
    (agc_enable : Bool) (gain : ℚ) (include_metrics : Bool) (ssrc : Option ℤ)
    (res : GocResult) (cmds : List Command)
    (h : get_or_create_channel snap1 snap2 control frequency_hz rtp_destination
        rtp_port preset sample_rate agc_enable gain include_metrics ssrc
        = .ok (res, cmds)) :
    cmds.length ≤ 1 ∧ ∀ c ∈ cmds, c.freqOf = some frequency_hz := by
  simp only [get_or_create_channel] at h
  cases hfind : find_channel_by_frequency snap1 frequency_hz
      (some (pyOrStr rtp_destination DEFAULT_RTP_DESTINATION)) with
  | some r =>
    simp only [hfind] at h
    injection h with h1
    injection h1 with hres hcmds
    subst hcmds
    simp
  | none =>
    simp only [hfind] at h
    cases hro : control.request_outcome with
    | raised msg =>
      rw [hro] at h
      exact absurd h (by simp)
    | ok =>
      simp only [hro] at h
      injection h with h1
      have h2 := congrArg Prod.snd h1
      rw [gocAfterCreate_snd] at h2
      simp only at h2
      subst h2
      refine ⟨by simp, ?_⟩
      intro c hc
      simp only [List.mem_singleton] at hc
      subst hc
      rfl
    | attrError =>
      simp only [hro] at h
      cases hco : control.create_outcome with
      | error msg =>
        rw [hco] at h
        exact absurd h (by simp)
      | ok u =>
        simp only [hco] at h
        injection h with h1
        have h2 := congrArg Prod.snd h1
        rw [gocAfterCreate_snd] at h2
        simp only at h2
        subst h2
        refine ⟨by simp, ?_⟩
        intro c hc
        simp only [List.mem_singleton] at hc
        subst hc
        rfl

/-- C5 witness: the amended theorem applied to the 1 MHz "requested"
run. -/
theorem get_or_create_c5_witness :
    ([requestCmd1M] : List Command).length ≤ 1 ∧
      ∀ c ∈ ([requestCmd1M] : List Command), c.freqOf = some 1000000 :=
  get_or_create_at_most_one_command emptySnap emptySnap ctrlOk 1000000 none
    none none none false 30 false none requested1M [requestCmd1M]
    (by norm_num [get_or_create_channel, find_channel_by_frequency,
      discover_channels, emptySnap, buildChannels, pyDictLookup, pyInt, ctrlOk,
      gocAfterCreate, add_metrics, pyOrStr, pyOrNat, requested1M, requestCmd1M])

/-- C6 counterexample: when the multicast source returns an empty set and
the control-socket query then produces the channels, the result is
tagged `method = "multicast"` — never `"control-query"`; and when the
multicast source raises, the function returns a failure result without
attempting the control-query source at all (the channels it would have
produced are absent). -/
theorem discover_multicast_c6_counterexample :
    (discover_multicast_addresses (.ok []) (.ok [(1, chDM)])).method
        = some "multicast" ∧
    (discover_multicast_addresses (.ok []) (.ok [(1, chDM)])).channel_count
        = some 1 ∧
    discover_multicast_addresses (.error "boom") (.ok [(1, chDM)])
        = { success := false, error := some "boom", addresses := [] } := by
  refine ⟨?_, ?_, rfl⟩ <;>
    simp [discover_multicast_addresses, chDM, List.insertionSort,
      List.orderedInsert, List.dedup_cons_of_not_mem, List.dedup_nil]

/-- C6 (amended): the multicast source is attempted first; the
control-query source is consulted only when multicast returns an empty
set without raising (a non-empty multicast result makes the outcome
independent of the control source); a multicast exception yields a
failure result without attempting the control-query source; and the
`method` tag is `"multicast"` whenever the winning channel set is
non-empty — even when the control-query source produced it — and
`"none"` when it is empty; `"control-query"` is never reported. -/
theorem discover_multicast_strategy_behaviour
    (cs cs' : Except String (List (Nat × Channel))) (e : String)
    (l c : List (Nat × Channel)) :
    (l ≠ [] →
      discover_multicast_addresses (.ok l) cs
          = discover_multicast_addresses (.ok l) cs' ∧
      (discover_multicast_addresses (.ok l) cs).method = some "multicast") ∧
    discover_multicast_addresses (.error e) cs
        = { success := false, error := some e, addresses := [] } ∧
    (discover_multicast_addresses (.ok []) (.ok c)).channel_count
        = some c.length ∧
    (discover_multicast_addresses (.ok []) (.ok c)).method
        = some (if c.isEmpty then "none" else "multicast") := by
  refine ⟨?_, rfl, ?_, ?_⟩
  · intro hl
    cases l with
    | nil => exact absurd rfl hl
    | cons a rest =>
      exact ⟨by simp [discover_multicast_addresses],
             by simp [discover_multicast_addresses]⟩
  · simp [discover_multicast_addresses]
  · simp [discover_multicast_addresses]

/-- C6 witness: the amended theorem applied to a one-channel multicast
result, a raising multicast source, and an empty pair of sources. -/
theorem discover_multicast_c6_witness :
    (discover_multicast_addresses (.ok [(1, chDM)]) (.ok [])
        = discover_multicast_addresses (.ok [(1, chDM)]) (.error "x") ∧
      (discover_multicast_addresses (.ok [(1, chDM)]) (.ok [])).method
        = some "multicast") ∧
    discover_multicast_addresses (.error "down") (.ok [])
        = { success := false, error := some "down", addresses := [] } ∧
    (discover_multicast_addresses (.ok [])
        (.ok ([] : List (Nat × Channel)))).channel_count
        = some ([] : List (Nat × Channel)).length ∧
    (discover_multicast_addresses (.ok [])
        (.ok ([] : List (Nat × Channel)))).method
        = some (if ([] : List (Nat × Channel)).isEmpty then "none"
                else "multicast") := by
  have h := discover_multicast_strategy_behaviour (.ok []) (.error "x") "down"
    [(1, chDM)] ([] : List (Nat × Channel))
  exact ⟨h.1 (by simp), h.2.1, h.2.2.1, h.2.2.2⟩

/-- C7: when the multicast discovery source raises,
`discover_channels` absorbs the error and returns an empty snapshot
(`channel_count = 0`, empty channel maps) annotated with a
human-readable reason note — it never propagates the error (its result
type is a plain snapshot for every input). -/
theorem discover_channels_absorbs_failure (e : String)
    (rtp_destination : Option String) :
    discover_channels (.error e) rtp_destination =
      { multicast_address := "unknown"
        channel_count := 0
        channels := []
        channels_by_freq := []
        note := some "Multicast discovery not available (remote client or network issue)" } :=
  rfl

/-- C8: when the pre-check finds nothing and the post-create discovery
pass also fails to observe the channel, a create through the new
(daemon-assigns-identifier) API yields `mode = "requested"` with the
identifier unknown (`ssrc = none`) and `success = true`, while the
legacy fallback path (AttributeError, pre-assigned identifier) yields
`mode = "created_fallback"` carrying the truncated frequency it used as
the identifier. -/
theorem get_or_create_unconfirmed_modes
    (snap1 snap2 : Except String (String × List (Nat × Channel)))
    (control : ControlBehavior) (frequency_hz : ℚ)
    (rtp_destination : Option String) (rtp_port : Option Nat)
    (preset : Option String) (sample_rate : Option Nat)
    (agc_enable : Bool) (gain : ℚ) (include_metrics : Bool) (ssrc : Option ℤ)
    (h1 : find_channel_by_frequency snap1 frequency_hz
        (some (pyOrStr rtp_destination DEFAULT_RTP_DESTINATION)) = none)
    (h2 : find_channel_by_frequency snap2 frequency_hz
        (some (pyOrStr rtp_destination DEFAULT_RTP_DESTINATION)) = none) :
    (control.request_outcome = .ok →
      ∃ res cmds,
        get_or_create_channel snap1 snap2 control frequency_hz rtp_destination
            rtp_port preset sample_rate agc_enable gain include_metrics ssrc
          = .ok (res, cmds) ∧
        res.mode = "requested" ∧ res.ssrc = none ∧ res.success = true) ∧
    (∀ u, control.request_outcome = .attrError →
      control.create_outcome = .ok u →
      ∃ res cmds,
        get_or_create_channel snap1 snap2 control frequency_hz rtp_destination
            rtp_port preset sample_rate agc_enable gain include_metrics ssrc
          = .ok (res, cmds) ∧
        res.mode = "created_fallback" ∧ res.ssrc = some (pyInt frequency_hz) ∧
        res.success = true) := by
  constructor
  · intro hro
    simp only [get_or_create_channel, h1, hro]
    refine ⟨_, _, congrArg Except.ok (Prod.mk.eta).symm, ?_, ?_, ?_⟩
    · exact (gocAfterCreate_requested _ _ _ _ _ _ _ _ _ h2).1
    · exact (gocAfterCreate_requested _ _ _ _ _ _ _ _ _ h2).2.1
    · exact (gocAfterCreate_requested _ _ _ _ _ _ _ _ _ h2).2.2
  · intro u hro hco
    simp only [get_or_create_channel, h1, hro, hco]
    refine ⟨_, _, congrArg Except.ok (Prod.mk.eta).symm, ?_, ?_, ?_⟩
    · exact (gocAfterCreate_fallback _ _ _ _ _ _ _ _ _ _ h2).1
    · exact (gocAfterCreate_fallback _ _ _ _ _ _ _ _ _ _ h2).2.1
    · exact (gocAfterCreate_fallback _ _ _ _ _ _ _ _ _ _ h2).2.2

/-- C8 witness: both unconfirmed-create outcomes at 7.1 MHz against
empty discovery passes: the new API reports `requested` with unknown
ssrc, the legacy fallback reports `created_fallback` with the truncated
frequency as ssrc. -/
theorem get_or_create_c8_witness :
    (∃ res cmds,
        get_or_create_channel emptySnap emptySnap ctrlOk 7100000 none none
            none none false 30 false none = .ok (res, cmds) ∧
        res.mode = "requested" ∧ res.ssrc = none ∧ res.success = true) ∧
    (∃ res cmds,
        get_or_create_channel emptySnap emptySnap ctrlLegacy 7100000 none none
            none none false 30 false none = .ok (res, cmds) ∧
        res.mode = "created_fallback" ∧ res.ssrc = some (pyInt 7100000) ∧
        res.success = true) :=
  ⟨(get_or_create_unconfirmed_modes emptySnap emptySnap ctrlOk 7100000 none
      none none none false 30 false none rfl rfl).1 rfl,
   (get_or_create_unconfirmed_modes emptySnap emptySnap ctrlLegacy 7100000 none
      none none none false 30 false none rfl rfl).2 () rfl rfl⟩

/-- C9: `remove_channel` given a frequency but no identifier, when the
fresh discovery snapshot yields no match, returns `success = false` with
the "No channel found" error and issues no remove command — it never
silently succeeds. -/
theorem remove_channel_not_found
    (snap : Except String (String × List (Nat × Channel)))
    (control : ControlBehavior) (frequency_hz : ℚ)
    (rtp_destination : Option String) (include_metrics : Bool)
    (h : find_channel_by_frequency snap frequency_hz
        (some (pyOrStr rtp_destination DEFAULT_RTP_DESTINATION)) = none) :
    remove_channel snap control none (some frequency_hz) rtp_destination
        include_metrics =
      .ok ({ success := false
             error := some ("No channel found at frequency "
               ++ toString frequency_hz ++ " Hz") }, []) := by
  simp only [remove_channel, h]

/-- C9 witness: removal by frequency against an empty snapshot. -/
theorem remove_channel_c9_witness :
    remove_channel emptySnap ctrlOk none (some 7000000) none false =
      .ok ({ success := false
             error := some ("No channel found at frequency "
               ++ toString (7000000 : ℚ) ++ " Hz") }, []) :=
  remove_channel_not_found emptySnap ctrlOk 7000000 none false rfl

/-- C10: the deprecated `ssrc` argument of `get_or_create_channel` is
ignored: any two calls differing only in it (including `none` versus any
integer) return identical results. -/
theorem get_or_create_ignores_deprecated_ssrc
    (snap1 snap2 : Except String (String × List (Nat × Channel)))
    (control : ControlBehavior) (frequency_hz : ℚ)
    (rtp_destination : Option String) (rtp_port : Option Nat)
    (preset : Option String) (sample_rate : Option Nat)
    (agc_enable : Bool) (gain : ℚ) (include_metrics : Bool)
    (ssrc ssrc' : Option ℤ) :
    get_or_create_channel snap1 snap2 control frequency_hz rtp_destination
        rtp_port preset sample_rate agc_enable gain include_metrics ssrc =
      get_or_create_channel snap1 snap2 control frequency_hz rtp_destination
        rtp_port preset sample_rate agc_enable gain include_metrics ssrc' :=
  rfl

end SWL
